import Mathlib

/-!
Shallow embedding of the inko-bot transaction-execution engine
(`src/unnamed/part_000` and `src/src/main.js`).

The JavaScript program drives repeated mint/approve/wrap/unwrap transactions
through a retry/failover loop (`executeTransaction`), gated by balance and
allowance precondition checks (`checkAndMintIfNeeded`,
`checkAndApproveIfNeeded`), with randomized token identifiers
(`getRandomTokenID`) and, in the batch variant, a 24-hour cycle pacing
computation in `main`.

Modelling conventions:
* JavaScript errors are `JsError` values carrying an optional `code`
  (numeric or string) and an optional `message` string, exactly the two
  fields inspected by the catch branch of `executeTransaction`.
* The outcome of each attempt (the `try` body: `getFeeData`, `fn`,
  `tx.wait`) is supplied by an oracle `Nat → Except JsError Unit` indexed
  by the attempt number; `Except.ok ()` means the transaction was sent and
  confirmed, `Except.error e` means some step of the attempt threw `e`.
* The connection rebuild performed inside the catch branch (the JS
  function that re-creates provider, wallet and contract handles, which
  reads ABI files and can itself throw) is supplied by a second oracle
  indexed by how many rebuilds have happened so far.
* The global RPC index is threaded explicitly; BigInt values are `Nat`.
-/

namespace InkoBot

/-- Error codes seen on JavaScript error objects: either a numeric JSON-RPC
code (such as -32029) or an ethers string code (such as SERVER_ERROR). -/
inductive ErrCode where
  | num (n : Int)
  | str (s : String)
deriving DecidableEq

/-- The slice of a JavaScript error object inspected by the catch branch of
`executeTransaction`: optional `code` and optional `message`. -/
structure JsError where
  code : Option ErrCode
  message : Option String
deriving DecidableEq

/-- Whether the first list occurs at the head of the second list. -/
def listStartsWith : List Char → List Char → Bool
  | [], _ => true
  | _ :: _, [] => false
  | p :: ps, a :: as => p == a && listStartsWith ps as

/-- Whether the first list occurs contiguously anywhere inside the second
list; models JavaScript substring search. -/
def occursIn (pat : List Char) : List Char → Bool
  | [] => listStartsWith pat []
  | a :: as => listStartsWith pat (a :: as) || occursIn pat as

/-- Models JavaScript substring membership `s.includes(pat)`. -/
def strHas (s pat : String) : Bool := occursIn pat.toList s.toList

/-- ASCII lower-casing of a character list; models
`String.prototype.toLowerCase` on the messages at hand. -/
def lowerChars (l : List Char) : List Char := l.map Char.toLower

/-- Line 73: `(error.code === -32029) || (error.message &&
error.message.toLowerCase().includes("rate limit exceeded"))`. -/
def isRateLimitError (e : JsError) : Bool :=
  (match e.code with
   | some (ErrCode.num n) => n == -32029
   | _ => false)
  || (match e.message with
      | some m => occursIn "rate limit exceeded".toList (lowerChars m.toList)
      | none => false)

/-- Line 74: `["SERVER_ERROR", "NETWORK_ERROR", "TIMEOUT"].includes(error.code)
|| (error.message && error.message.includes("failed to detect network"))`. -/
def isNetworkError (e : JsError) : Bool :=
  (match e.code with
   | some (ErrCode.str s) => ["SERVER_ERROR", "NETWORK_ERROR", "TIMEOUT"].contains s
   | _ => false)
  || (match e.message with
      | some m => strHas m "failed to detect network"
      | none => false)

/-- The attempt-outcome classification driving the retry policy. -/
inductive Outcome where
  | RateLimited
  | NetworkFailure
  | FatalError
deriving DecidableEq

/-- The branch structure of the catch block in `executeTransaction`:
rate-limit errors are tested first, then network errors, and everything
else is fatal. -/
def classify (e : JsError) : Outcome :=
  if isRateLimitError e then Outcome.RateLimited
  else if isNetworkError e then Outcome.NetworkFailure
  else Outcome.FatalError

/-- Line 38: the fixed ordered endpoint pool. -/
def RPC_URLS : List String :=
  ["https://sepolia.base.org", "https://base-sepolia.drpc.org", "https://base-sepolia.therpc.io"]

/-- Line 40: the fixed attempt budget. -/
def MAX_RETRIES : Nat := 5

/-- The observable outcome of one `executeTransaction` call: the returned
value (`Except.error e` when an exception escapes the call instead of a
boolean being returned), the number of loop iterations (submission
attempts) performed, and the final global RPC index. -/
structure ExecResult where
  result : Except JsError Bool
  attemptsMade : Nat
  rpcIndex : Nat

/-- The `for (let attempt = 1; attempt <= MAX_RETRIES; attempt++)` loop of
`executeTransaction` (lines 62-99).  `fuel` counts the loop iterations
still available (the loop runs while `attempt ≤ MAX_RETRIES`, so it is
entered with `fuel = MAX_RETRIES` at `attempt = 1`); `rc` counts
connection rebuilds so far (indexing the rebuild oracle); `idx` is the
global RPC index; `made` counts attempts begun so far.  Falling out of the
loop returns `false` (line 99). -/
def execLoop (oracle reinit : Nat → Except JsError Unit) :
    Nat → Nat → Nat → Nat → Nat → ExecResult
  | 0, _, _, idx, made => ⟨Except.ok false, made, idx⟩
  | fuel + 1, attempt, rc, idx, made =>
    match oracle attempt with
    | Except.ok _ => ⟨Except.ok true, made + 1, idx⟩
    | Except.error e =>
      match classify e with
      | Outcome.RateLimited =>
        if attempt < MAX_RETRIES then
          execLoop oracle reinit fuel (attempt + 1) rc idx (made + 1)
        else
          ⟨Except.ok false, made + 1, idx⟩
      | Outcome.NetworkFailure =>
        match reinit rc with
        | Except.ok _ =>
          execLoop oracle reinit fuel (attempt + 1) (rc + 1)
            ((idx + 1) % RPC_URLS.length) (made + 1)
        | Except.error e2 => ⟨Except.error e2, made + 1, (idx + 1) % RPC_URLS.length⟩
      | Outcome.FatalError => ⟨Except.ok false, made + 1, idx⟩

/-- The executor entry point `executeTransaction(fn, actionName)` (lines
61-100), as a function of
the per-attempt outcome oracle, the rebuild oracle, and the RPC index held
in the global `currentRpcIndex` before the call. -/
def executeTransaction (oracle reinit : Nat → Except JsError Unit) (rpcIndex : Nat) : ExecResult :=
  execLoop oracle reinit MAX_RETRIES 1 0 rpcIndex 0

/-- Line 104: `ethers.parseUnits("100", 18)`. -/
def MINT_AMOUNT : Nat := 100 * 10 ^ 18

/-- Line 105: `ethers.parseUnits("1000000", 18)`. -/
def SUFFICIENT_ALLOWANCE : Nat := 1000000 * 10 ^ 18

/-- The constant `ethers.MaxUint256`. -/
def MaxUint256 : Nat := 2 ^ 256 - 1

/-- The transaction actions the precondition checks can submit through the
executor. -/
inductive Action where
  | mint (amount : Nat)
  | approve (amount : Nat)
deriving DecidableEq

/-- Result of a precondition check: the returned boolean plus the list of
actions it submitted through the executor. -/
structure CheckResult where
  result : Bool
  submitted : List Action
deriving DecidableEq

/-- The balance precondition check `checkAndMintIfNeeded` (lines 107-127):
the balance read is an
`Except` (it sits in a try/catch whose catch returns `false`); on balance
exactly zero one mint of `MINT_AMOUNT` is submitted through the executor,
whose boolean result is abstracted by `execute`. -/
def checkAndMintIfNeeded (balanceRead : Except JsError Nat) (execute : Action → Bool) :
    CheckResult :=
  match balanceRead with
  | Except.error _ => ⟨false, []⟩
  | Except.ok balance =>
    if balance = 0 then
      ⟨execute (Action.mint MINT_AMOUNT), [Action.mint MINT_AMOUNT]⟩
    else
      ⟨true, []⟩

/-- The allowance precondition check `checkAndApproveIfNeeded` (lines
129-149): same shape over the
allowance read, submitting one approve of `MaxUint256` when the allowance
is below `SUFFICIENT_ALLOWANCE`. -/
def checkAndApproveIfNeeded (allowanceRead : Except JsError Nat) (execute : Action → Bool) :
    CheckResult :=
  match allowanceRead with
  | Except.error _ => ⟨false, []⟩
  | Except.ok allowance =>
    if allowance < SUFFICIENT_ALLOWANCE then
      ⟨execute (Action.approve MaxUint256), [Action.approve MaxUint256]⟩
    else
      ⟨true, []⟩

/-- Numeric value of the decimal digit string `ds`
(most significant first); models `BigInt(result)` applied to a string of
decimal digits. -/
def digitsToNat (ds : List Nat) : Nat := ds.foldl (fun acc d => 10 * acc + d) 0

/-- Little-endian decimal digits of `n`, computed with structural fuel. -/
def decDigitsAux : Nat → Nat → List Nat
  | _, 0 => []
  | 0, _ + 1 => []
  | fuel + 1, n + 1 => ((n + 1) % 10) :: decDigitsAux fuel ((n + 1) / 10)

/-- The decimal digit string of `n`, most significant first; models
`n.toString()` for positive `n`. -/
def decimalDigits (n : Nat) : List Nat := (decDigitsAux n n).reverse

/-- Models JavaScript `.slice(-k)`: `sliceLast k l` is the last `k` elements
of `l` (all of `l` when it is shorter than `k`). -/
def sliceLast (k : Nat) (l : List Nat) : List Nat := l.drop (l.length - k)

/-- Token identifier generation `getRandomTokenID` (lines 20-28):
`choices` are the 18 random digit
picks (`Math.floor(Math.random() * 10)` each) and `now` is `Date.now()`;
the value is the concatenated digit string - random digits then the last 5
characters of the decimal representation of `now` - parsed as a number. -/
def getRandomTokenID (choices : List Nat) (now : Nat) : Nat :=
  digitsToNat (choices ++ sliceLast 5 (decimalDigits now))

/-- Line 152 of main.js: `24 * 60 * 60 * 1000`. -/
def oneDayInMs : Int := 24 * 60 * 60 * 1000

/-- Line 153 of main.js: `Math.max(0, oneDayInMs - cycleDuration)`. -/
def mainSleepTime (cycleDuration : Int) : Int := max 0 (oneDayInMs - cycleDuration)

/-- Concrete rate-limit error: JSON-RPC code -32029. -/
def rateLimitErr : JsError := ⟨some (ErrCode.num (-32029)), none⟩

/-- Concrete network error: ethers code SERVER_ERROR. -/
def serverErr : JsError := ⟨some (ErrCode.str "SERVER_ERROR"), none⟩

/-- Concrete fatal error: a contract revert message. -/
def revertErr : JsError := ⟨none, some "execution reverted"⟩

/-- Concrete error thrown by the connection rebuild (ABI file read). -/
def abiReadErr : JsError := ⟨none, some "ENOENT: no such file"⟩

/-- Concrete error matching both the rate-limit criteria (code) and the
network-failure criteria (message). -/
def bothErr : JsError := ⟨some (ErrCode.num (-32029)), some "failed to detect network"⟩

/-- Attempt oracle: every attempt raises the rate-limit error. -/
def alwaysRateLimited : Nat → Except JsError Unit := fun _ => Except.error rateLimitErr

/-- Attempt oracle: every attempt raises a network error. -/
def alwaysNetworkFail : Nat → Except JsError Unit := fun _ => Except.error serverErr

/-- Attempt oracle: every attempt raises a fatal error. -/
def fatalAlways : Nat → Except JsError Unit := fun _ => Except.error revertErr

/-- Attempt oracle: the first two attempts raise network errors, the third
succeeds. -/
def netTwiceThenOk : Nat → Except JsError Unit :=
  fun a => if a ≤ 2 then Except.error serverErr else Except.ok ()

/-- Attempt oracle: attempts before `k` raise the rate-limit error, attempt
`k` (and later) succeed. -/
def failThenOk (k : Nat) : Nat → Except JsError Unit :=
  fun a => if a < k then Except.error rateLimitErr else Except.ok ()

/-- Rebuild oracle: every connection rebuild succeeds. -/
def okReinit : Nat → Except JsError Unit := fun _ => Except.ok ()

/-- Rebuild oracle: every connection rebuild throws (ABI file read fails). -/
def badReinit : Nat → Except JsError Unit := fun _ => Except.error abiReadErr

/-- Executor stub that reports success for any submitted action. -/
def execTrue : Action → Bool := fun _ => true

end InkoBot

namespace InkoBot

/-! Unfolding lemmas for one iteration of the retry loop. -/

/-- The attempt confirms: return `true` at once. -/
theorem execLoop_step_ok {oracle reinit : Nat → Except JsError Unit}
    {fuel attempt rc idx made : Nat} (h : oracle attempt = Except.ok ()) :
    execLoop oracle reinit (fuel + 1) attempt rc idx made =
      ⟨Except.ok true, made + 1, idx⟩ := by
  simp [execLoop, h]

/-- Rate-limited with attempts to spare: back off and retry. -/
theorem execLoop_step_rate_retry {oracle reinit : Nat → Except JsError Unit}
    {fuel attempt rc idx made : Nat} {e : JsError}
    (h : oracle attempt = Except.error e) (hc : classify e = Outcome.RateLimited)
    (hlt : attempt < MAX_RETRIES) :
    execLoop oracle reinit (fuel + 1) attempt rc idx made =
      execLoop oracle reinit fuel (attempt + 1) rc idx (made + 1) := by
  simp [execLoop, h, hc, hlt]

/-- Rate-limited on the last attempt: abort with `false`. -/
theorem execLoop_step_rate_abort {oracle reinit : Nat → Except JsError Unit}
    {fuel attempt rc idx made : Nat} {e : JsError}
    (h : oracle attempt = Except.error e) (hc : classify e = Outcome.RateLimited)
    (hge : ¬ attempt < MAX_RETRIES) :
    execLoop oracle reinit (fuel + 1) attempt rc idx made =
      ⟨Except.ok false, made + 1, idx⟩ := by
  simp [execLoop, h, hc, hge]

/-- Network failure with a successful rebuild: advance the RPC index and
retry. -/
theorem execLoop_step_net_retry {oracle reinit : Nat → Except JsError Unit}
    {fuel attempt rc idx made : Nat} {e : JsError}
    (h : oracle attempt = Except.error e) (hc : classify e = Outcome.NetworkFailure)
    (hr : reinit rc = Except.ok ()) :
    execLoop oracle reinit (fuel + 1) attempt rc idx made =
      execLoop oracle reinit fuel (attempt + 1) (rc + 1)
        ((idx + 1) % RPC_URLS.length) (made + 1) := by
  simp [execLoop, h, hc, hr]

/-- Network failure whose rebuild throws: the thrown error escapes. -/
theorem execLoop_step_net_throw {oracle reinit : Nat → Except JsError Unit}
    {fuel attempt rc idx made : Nat} {e e2 : JsError}
    (h : oracle attempt = Except.error e) (hc : classify e = Outcome.NetworkFailure)
    (hr : reinit rc = Except.error e2) :
    execLoop oracle reinit (fuel + 1) attempt rc idx made =
      ⟨Except.error e2, made + 1, (idx + 1) % RPC_URLS.length⟩ := by
  simp [execLoop, h, hc, hr]

/-- Fatal error: abort with `false` at once. -/
theorem execLoop_step_fatal {oracle reinit : Nat → Except JsError Unit}
    {fuel attempt rc idx made : Nat} {e : JsError}
    (h : oracle attempt = Except.error e) (hc : classify e = Outcome.FatalError) :
    execLoop oracle reinit (fuel + 1) attempt rc idx made =
      ⟨Except.ok false, made + 1, idx⟩ := by
  simp [execLoop, h, hc]

/-- The RPC index stays a valid position in the endpoint pool through any
run of the retry loop. -/
theorem execLoop_rpcIndex_lt (oracle reinit : Nat → Except JsError Unit) :
    ∀ fuel attempt rc idx made, idx < RPC_URLS.length →
      (execLoop oracle reinit fuel attempt rc idx made).rpcIndex < RPC_URLS.length := by
  intro fuel
  induction fuel with
  | zero => intro attempt rc idx made h; simpa [execLoop] using h
  | succ fuel ih =>
    intro attempt rc idx made h
    have hmod : (idx + 1) % RPC_URLS.length < RPC_URLS.length :=
      Nat.mod_lt _ (by simp [RPC_URLS])
    cases ho : oracle attempt with
    | ok u =>
      cases u
      rw [execLoop_step_ok ho]
      exact h
    | error e =>
      cases hc : classify e with
      | RateLimited =>
        by_cases hlt : attempt < MAX_RETRIES
        · rw [execLoop_step_rate_retry ho hc hlt]; exact ih _ _ _ _ h
        · rw [execLoop_step_rate_abort ho hc hlt]; exact h
      | NetworkFailure =>
        cases hr : reinit rc with
        | ok u =>
          cases u
          rw [execLoop_step_net_retry ho hc hr]
          exact ih _ _ _ _ hmod
        | error e2 =>
          rw [execLoop_step_net_throw ho hc hr]
          exact hmod
      | FatalError =>
        rw [execLoop_step_fatal ho hc]
        exact h

/-- If `j` consecutive attempts fail retriably (with all rebuilds
succeeding) and the next attempt confirms, the loop returns `true` having
begun exactly `j + 1` further attempts. -/
theorem execLoop_retry_then_ok (oracle reinit : Nat → Except JsError Unit)
    (hre : ∀ n, reinit n = Except.ok ()) :
    ∀ j fuel attempt rc idx made, j < fuel → attempt + j ≤ MAX_RETRIES →
      (∀ i, attempt ≤ i → i < attempt + j →
        ∃ e, oracle i = Except.error e ∧ classify e ≠ Outcome.FatalError) →
      oracle (attempt + j) = Except.ok () →
      (execLoop oracle reinit fuel attempt rc idx made).result = Except.ok true ∧
      (execLoop oracle reinit fuel attempt rc idx made).attemptsMade = made + j + 1 := by
  intro j
  induction j with
  | zero =>
    intro fuel attempt rc idx made hj _ _ hok
    obtain ⟨fuel, rfl⟩ : ∃ f, fuel = f + 1 := ⟨fuel - 1, by omega⟩
    rw [execLoop_step_ok (by simpa using hok)]
    exact ⟨rfl, rfl⟩
  | succ j ih =>
    intro fuel attempt rc idx made hj hle hfail hok
    obtain ⟨fuel, rfl⟩ : ∃ f, fuel = f + 1 := ⟨fuel - 1, by omega⟩
    obtain ⟨e, he, hce⟩ := hfail attempt le_rfl (by omega)
    have hok' : oracle (attempt + 1 + j) = Except.ok () := by
      rw [show attempt + 1 + j = attempt + (j + 1) by omega]; exact hok
    have hfail' : ∀ i, attempt + 1 ≤ i → i < attempt + 1 + j →
        ∃ e, oracle i = Except.error e ∧ classify e ≠ Outcome.FatalError :=
      fun i hi1 hi2 => hfail i (by omega) (by omega)
    cases hc : classify e with
    | RateLimited =>
      rw [execLoop_step_rate_retry he hc (by omega)]
      have h2 := ih fuel (attempt + 1) rc idx (made + 1) (by omega) (by omega) hfail' hok'
      exact ⟨h2.1, h2.2.trans (by omega)⟩
    | NetworkFailure =>
      rw [execLoop_step_net_retry he hc (hre rc)]
      have h2 := ih fuel (attempt + 1) (rc + 1) ((idx + 1) % RPC_URLS.length) (made + 1)
        (by omega) (by omega) hfail' hok'
      exact ⟨h2.1, h2.2.trans (by omega)⟩
    | FatalError => exact absurd hc hce

/-- As long as every connection rebuild succeeds, the loop resolves to a
boolean. -/
theorem execLoop_absorbs (oracle reinit : Nat → Except JsError Unit)
    (hre : ∀ n, reinit n = Except.ok ()) :
    ∀ fuel attempt rc idx made,
      ∃ b, (execLoop oracle reinit fuel attempt rc idx made).result = Except.ok b := by
  intro fuel
  induction fuel with
  | zero => intro attempt rc idx made; exact ⟨false, rfl⟩
  | succ fuel ih =>
    intro attempt rc idx made
    cases ho : oracle attempt with
    | ok u =>
      cases u
      exact ⟨true, by rw [execLoop_step_ok ho]⟩
    | error e =>
      cases hc : classify e with
      | RateLimited =>
        by_cases hlt : attempt < MAX_RETRIES
        · rw [execLoop_step_rate_retry ho hc hlt]; exact ih _ _ _ _
        · exact ⟨false, by rw [execLoop_step_rate_abort ho hc hlt]⟩
      | NetworkFailure =>
        rw [execLoop_step_net_retry ho hc (hre rc)]
        exact ih _ _ _ _
      | FatalError => exact ⟨false, by rw [execLoop_step_fatal ho hc]⟩

/-- C1: with the fixed attempt budget `MAX_RETRIES = 5`, a call to
`executeTransaction` whose every attempt raises an error classified as
rate-limited performs exactly 5 submission attempts and then returns
`false`. -/
theorem executeTransaction_rate_limit_exhaustion
    (oracle reinit : Nat → Except JsError Unit) (i0 : Nat)
    (h : ∀ a, 1 ≤ a → a ≤ MAX_RETRIES →
      ∃ e, oracle a = Except.error e ∧ classify e = Outcome.RateLimited) :
    MAX_RETRIES = 5 ∧
    (executeTransaction oracle reinit i0).result = Except.ok false ∧
    (executeTransaction oracle reinit i0).attemptsMade = MAX_RETRIES := by
  obtain ⟨e1, he1, hc1⟩ := h 1 (by decide) (by decide)
  obtain ⟨e2, he2, hc2⟩ := h 2 (by decide) (by decide)
  obtain ⟨e3, he3, hc3⟩ := h 3 (by decide) (by decide)
  obtain ⟨e4, he4, hc4⟩ := h 4 (by decide) (by decide)
  obtain ⟨e5, he5, hc5⟩ := h 5 (by decide) (by decide)
  have key : executeTransaction oracle reinit i0 = ⟨Except.ok false, 5, i0⟩ := by
    show execLoop oracle reinit 5 1 0 i0 0 = _
    rw [execLoop_step_rate_retry he1 hc1 (by decide),
      execLoop_step_rate_retry he2 hc2 (by decide),
      execLoop_step_rate_retry he3 hc3 (by decide),
      execLoop_step_rate_retry he4 hc4 (by decide),
      execLoop_step_rate_abort he5 hc5 (by decide)]
  exact ⟨rfl, by rw [key], by rw [key]; rfl⟩

/-- C1 witness: the always-rate-limited oracle. -/
theorem executeTransaction_rate_limit_exhaustion_witness :
    MAX_RETRIES = 5 ∧
    (executeTransaction alwaysRateLimited okReinit 0).result = Except.ok false ∧
    (executeTransaction alwaysRateLimited okReinit 0).attemptsMade = MAX_RETRIES :=
  executeTransaction_rate_limit_exhaustion alwaysRateLimited okReinit 0
    (fun a _ _ => ⟨rateLimitErr, rfl, by decide⟩)

/-- C2: every network-failure attempt advances the endpoint index by one
modulo the pool length, so the index always stays a valid position; in the
scenario where the first two attempts fail with network errors and the
third succeeds, the call returns `true` after 3 attempts with the index
advanced by 2 modulo the pool length. -/
theorem executeTransaction_network_advances :
    (∀ oracle reinit i0, i0 < RPC_URLS.length →
      (executeTransaction oracle reinit i0).rpcIndex < RPC_URLS.length) ∧
    (∀ oracle reinit i0 e1 e2,
      oracle 1 = Except.error e1 → classify e1 = Outcome.NetworkFailure →
      oracle 2 = Except.error e2 → classify e2 = Outcome.NetworkFailure →
      oracle 3 = Except.ok () → (∀ n, reinit n = Except.ok ()) →
      (executeTransaction oracle reinit i0).result = Except.ok true ∧
      (executeTransaction oracle reinit i0).attemptsMade = 3 ∧
      (executeTransaction oracle reinit i0).rpcIndex = (i0 + 2) % RPC_URLS.length) := by
  constructor
  · intro oracle reinit i0 h
    exact execLoop_rpcIndex_lt oracle reinit MAX_RETRIES 1 0 i0 0 h
  · intro oracle reinit i0 e1 e2 h1 hc1 h2 hc2 h3 hre
    have key : executeTransaction oracle reinit i0 =
        ⟨Except.ok true, 3, ((i0 + 1) % RPC_URLS.length + 1) % RPC_URLS.length⟩ := by
      show execLoop oracle reinit 5 1 0 i0 0 = _
      rw [execLoop_step_net_retry h1 hc1 (hre 0),
        execLoop_step_net_retry h2 hc2 (hre 1),
        execLoop_step_ok h3]
    have hlen : RPC_URLS.length = 3 := rfl
    refine ⟨by rw [key], by rw [key], ?_⟩
    rw [key]
    show ((i0 + 1) % RPC_URLS.length + 1) % RPC_URLS.length = (i0 + 2) % RPC_URLS.length
    rw [hlen]
    omega

/-- C2 witness: two concrete SERVER_ERROR attempts then success, starting
from index 0. -/
theorem executeTransaction_network_advances_witness :
    (executeTransaction netTwiceThenOk okReinit 0).result = Except.ok true ∧
    (executeTransaction netTwiceThenOk okReinit 0).attemptsMade = 3 ∧
    (executeTransaction netTwiceThenOk okReinit 0).rpcIndex = (0 + 2) % RPC_URLS.length :=
  executeTransaction_network_advances.2 netTwiceThenOk okReinit 0 serverErr serverErr
    rfl (by decide) rfl (by decide) rfl (fun n => rfl)

/-- C3: a fatal error on the first attempt returns `false` immediately,
with exactly one attempt consumed and the endpoint index unchanged. -/
theorem executeTransaction_fatal_aborts (oracle reinit : Nat → Except JsError Unit)
    (i0 : Nat) (e : JsError)
    (h1 : oracle 1 = Except.error e) (hc : classify e = Outcome.FatalError) :
    (executeTransaction oracle reinit i0).result = Except.ok false ∧
    (executeTransaction oracle reinit i0).attemptsMade = 1 ∧
    (executeTransaction oracle reinit i0).rpcIndex = i0 := by
  have key : executeTransaction oracle reinit i0 = ⟨Except.ok false, 1, i0⟩ := by
    show execLoop oracle reinit 5 1 0 i0 0 = _
    rw [execLoop_step_fatal h1 hc]
  exact ⟨by rw [key], by rw [key], by rw [key]⟩

/-- C3 witness: a concrete contract-revert error at index 7. -/
theorem executeTransaction_fatal_aborts_witness :
    (executeTransaction fatalAlways okReinit 7).result = Except.ok false ∧
    (executeTransaction fatalAlways okReinit 7).attemptsMade = 1 ∧
    (executeTransaction fatalAlways okReinit 7).rpcIndex = 7 :=
  executeTransaction_fatal_aborts fatalAlways okReinit 7 revertErr rfl (by decide)

/-- C4: if the first `k - 1` attempts fail retriably (rate-limited or
network, with rebuilds succeeding) and attempt `k ≤ 5` confirms, the call
returns `true` immediately after attempt `k`, performing no further
attempts. -/
theorem executeTransaction_success_at_k (oracle reinit : Nat → Except JsError Unit)
    (k i0 : Nat) (hk1 : 1 ≤ k) (hk5 : k ≤ MAX_RETRIES)
    (hfail : ∀ i, 1 ≤ i → i < k →
      ∃ e, oracle i = Except.error e ∧ classify e ≠ Outcome.FatalError)
    (hok : oracle k = Except.ok ())
    (hre : ∀ n, reinit n = Except.ok ()) :
    (executeTransaction oracle reinit i0).result = Except.ok true ∧
    (executeTransaction oracle reinit i0).attemptsMade = k := by
  have h5 : MAX_RETRIES = 5 := rfl
  have hok' : oracle (1 + (k - 1)) = Except.ok () := by
    rw [show 1 + (k - 1) = k by omega]; exact hok
  have h2 := execLoop_retry_then_ok oracle reinit hre (k - 1) MAX_RETRIES 1 0 i0 0
    (by omega) (by omega) (fun i hi1 hi2 => hfail i hi1 (by omega)) hok'
  exact ⟨h2.1, h2.2.trans (by omega)⟩

/-- C4 witness: two rate-limited attempts, success on the third. -/
theorem executeTransaction_success_at_k_witness :
    (executeTransaction (failThenOk 3) okReinit 1).result = Except.ok true ∧
    (executeTransaction (failThenOk 3) okReinit 1).attemptsMade = 3 :=
  executeTransaction_success_at_k (failThenOk 3) okReinit 3 1 (by decide) (by decide)
    (fun i hi1 hi2 => ⟨rateLimitErr, by simp [failThenOk, hi2], by decide⟩)
    (by simp [failThenOk]) (fun n => rfl)

/-- C8 counterexample: when every attempt hits a network error and the
connection rebuild inside the catch branch throws (the ABI file read
fails), the thrown error escapes `executeTransaction` instead of a boolean
being returned. -/
theorem executeTransaction_rebuild_throw_escapes :
    (executeTransaction alwaysNetworkFail badReinit 0).result = Except.error abiReadErr := rfl

/-- C8 (amended): provided no connection rebuild performed inside the
catch branch itself throws, every error raised during an attempt is
absorbed and `executeTransaction` returns a boolean. -/
theorem executeTransaction_returns_bool (oracle reinit : Nat → Except JsError Unit)
    (i0 : Nat) (hre : ∀ n, reinit n = Except.ok ()) :
    ∃ b, (executeTransaction oracle reinit i0).result = Except.ok b :=
  execLoop_absorbs oracle reinit hre MAX_RETRIES 1 0 i0 0

/-- C8 witness: all attempts fail with network errors but every rebuild
succeeds; the call still resolves to a boolean. -/
theorem executeTransaction_returns_bool_witness :
    ∃ b, (executeTransaction alwaysNetworkFail okReinit 0).result = Except.ok b :=
  executeTransaction_returns_bool alwaysNetworkFail okReinit 0 (fun _ => rfl)


/-- C5: `checkAndMintIfNeeded` returns `true` submitting nothing when the
balance read succeeds with a positive value, submits exactly one mint of
the fixed amount and returns the executor result when the balance is
exactly zero, and returns `false` submitting nothing when the read throws. -/
theorem checkAndMintIfNeeded_spec (br : Except JsError Nat) (execute : Action → Bool) :
    (∀ b, br = Except.ok b → 0 < b →
      checkAndMintIfNeeded br execute = ⟨true, []⟩) ∧
    (br = Except.ok 0 →
      checkAndMintIfNeeded br execute =
        ⟨execute (Action.mint MINT_AMOUNT), [Action.mint MINT_AMOUNT]⟩) ∧
    (∀ e, br = Except.error e → checkAndMintIfNeeded br execute = ⟨false, []⟩) := by
  refine ⟨?_, ?_, ?_⟩
  · intro b hb hpos
    subst hb
    simp [checkAndMintIfNeeded, Nat.pos_iff_ne_zero.mp hpos]
  · intro hb
    subst hb
    simp [checkAndMintIfNeeded]
  · intro e he
    subst he
    simp [checkAndMintIfNeeded]

/-- C5 witness: a successful zero-balance read with an executor that
reports success. -/
theorem checkAndMintIfNeeded_spec_witness :
    checkAndMintIfNeeded (Except.ok 0) execTrue = ⟨true, [Action.mint MINT_AMOUNT]⟩ :=
  (checkAndMintIfNeeded_spec (Except.ok 0) execTrue).2.1 rfl

/-- C6: `checkAndApproveIfNeeded` returns `true` submitting nothing when
the allowance read succeeds with a value at or above the sufficiency
threshold, submits exactly one approve of `MaxUint256` and returns the
executor result when the value is below the threshold, and returns
`false` submitting nothing when the read throws. -/
theorem checkAndApproveIfNeeded_spec (ar : Except JsError Nat) (execute : Action → Bool) :
    (∀ b, ar = Except.ok b → SUFFICIENT_ALLOWANCE ≤ b →
      checkAndApproveIfNeeded ar execute = ⟨true, []⟩) ∧
    (∀ b, ar = Except.ok b → b < SUFFICIENT_ALLOWANCE →
      checkAndApproveIfNeeded ar execute =
        ⟨execute (Action.approve MaxUint256), [Action.approve MaxUint256]⟩) ∧
    (∀ e, ar = Except.error e → checkAndApproveIfNeeded ar execute = ⟨false, []⟩) := by
  refine ⟨?_, ?_, ?_⟩
  · intro b hb hge
    subst hb
    simp [checkAndApproveIfNeeded, Nat.not_lt.mpr hge]
  · intro b hb hlt
    subst hb
    simp [checkAndApproveIfNeeded, hlt]
  · intro e he
    subst he
    simp [checkAndApproveIfNeeded]

/-- C6 witness: a successful zero-allowance read with an executor that
reports success. -/
theorem checkAndApproveIfNeeded_spec_witness :
    checkAndApproveIfNeeded (Except.ok 0) execTrue =
      ⟨true, [Action.approve MaxUint256]⟩ :=
  (checkAndApproveIfNeeded_spec (Except.ok 0) execTrue).2.1 0 rfl
    (by norm_num [SUFFICIENT_ALLOWANCE])

/-- C9: after a daily cycle of duration `d`, the batch-mode loop sleeps
for exactly `max 0 (24h - d)` milliseconds: the remainder of the 24-hour
period, clamped to zero when the cycle overran the period. -/
theorem mainSleepTime_spec (d : Int) :
    mainSleepTime d = max 0 ((24 * 60 * 60 * 1000 : Int) - d) ∧
    (d ≤ 86400000 → mainSleepTime d = 86400000 - d) ∧
    (86400000 ≤ d → mainSleepTime d = 0) := by
  have ho : oneDayInMs = (86400000 : Int) := by norm_num [oneDayInMs]
  refine ⟨?_, ?_, ?_⟩
  · show max 0 (oneDayInMs - d) = _
    rw [ho]
    norm_num
  · intro hle
    show max 0 (oneDayInMs - d) = 86400000 - d
    rw [ho, max_eq_right (by omega)]
  · intro hge
    show max 0 (oneDayInMs - d) = 0
    rw [ho, max_eq_left (by omega)]

/-- C9 witness: a cycle that overran the 24-hour period sleeps zero. -/
theorem mainSleepTime_spec_witness :
    (86400000 : Int) ≤ 100000000 ∧ mainSleepTime 100000000 = 0 :=
  ⟨by norm_num, (mainSleepTime_spec 100000000).2.2 (by norm_num)⟩

/-- C10: the error classification is total - every error receives exactly
one of the three outcomes - and prioritized: an error meeting the
rate-limit criteria is rate-limited even when it also meets the
network-failure criteria, network failure requires the rate-limit test to
have failed, and anything matching neither is fatal. -/
theorem classify_total_prioritized (e : JsError) :
    (classify e = Outcome.RateLimited ∨ classify e = Outcome.NetworkFailure ∨
      classify e = Outcome.FatalError) ∧
    (isRateLimitError e = true → classify e = Outcome.RateLimited) ∧
    (classify e = Outcome.NetworkFailure →
      isRateLimitError e = false ∧ isNetworkError e = true) ∧
    (isRateLimitError e = false → isNetworkError e = false →
      classify e = Outcome.FatalError) ∧
    (isRateLimitError e = true → isNetworkError e = true →
      classify e = Outcome.RateLimited) := by
  cases hr : isRateLimitError e <;> cases hn : isNetworkError e <;>
    simp [classify, hr, hn]

/-- C10 witness: an error matching both the rate-limit criteria (code
-32029) and the network criteria (connection-detection message) is
classified as rate-limited. -/
theorem classify_total_prioritized_witness :
    isRateLimitError bothErr = true ∧ isNetworkError bothErr = true ∧
    classify bothErr = Outcome.RateLimited :=
  ⟨by decide, by decide,
    (classify_total_prioritized bothErr).2.2.2.2 (by decide) (by decide)⟩

/-! Decimal-digit machinery for the token identifier. -/

/-- The fuelled digit extractor agrees with `Nat.digits` in base 10. -/
theorem decDigitsAux_eq (fuel n : Nat) (h : n ≤ fuel) :
    decDigitsAux fuel n = Nat.digits 10 n := by
  induction fuel generalizing n with
  | zero =>
    have hn : n = 0 := by omega
    subst hn
    simp [decDigitsAux]
  | succ fuel ih =>
    cases n with
    | zero => simp [decDigitsAux]
    | succ n =>
      show ((n + 1) % 10) :: decDigitsAux fuel ((n + 1) / 10) = Nat.digits 10 (n + 1)
      rw [Nat.digits_def' (by norm_num : (1:ℕ) < 10) (Nat.succ_pos n), ih _ (by omega)]

/-- Folding the digit-accumulation step from an arbitrary accumulator. -/
theorem digitsToNat_foldl_acc (ds : List Nat) (acc : Nat) :
    ds.foldl (fun a d => 10 * a + d) acc = acc * 10 ^ ds.length + digitsToNat ds := by
  induction ds generalizing acc with
  | nil => simp [digitsToNat]
  | cons d ds ih =>
    show List.foldl _ (10 * acc + d) ds = _
    rw [ih (10 * acc + d)]
    have h0 : digitsToNat (d :: ds) = (10 * 0 + d) * 10 ^ ds.length + digitsToNat ds :=
      ih (10 * 0 + d)
    rw [h0]
    simp [List.length_cons]
    ring

/-- Value of a digit string with its leading digit split off. -/
theorem digitsToNat_cons (d : Nat) (ds : List Nat) :
    digitsToNat (d :: ds) = d * 10 ^ ds.length + digitsToNat ds := by
  have h0 : digitsToNat (d :: ds) = (10 * 0 + d) * 10 ^ ds.length + digitsToNat ds :=
    digitsToNat_foldl_acc ds (10 * 0 + d)
  rw [h0]
  ring

/-- Value of a concatenation of digit strings. -/
theorem digitsToNat_append (a b : List Nat) :
    digitsToNat (a ++ b) = digitsToNat a * 10 ^ b.length + digitsToNat b := by
  show List.foldl _ 0 (a ++ b) = _
  rw [List.foldl_append, digitsToNat_foldl_acc]
  rfl

/-- A most-significant-first digit string evaluates to `Nat.ofDigits` of
its little-endian reversal. -/
theorem digitsToNat_reverse (l : List Nat) :
    digitsToNat l.reverse = Nat.ofDigits 10 l := by
  induction l with
  | nil => simp [digitsToNat]
  | cons d ds ih =>
    rw [List.reverse_cons, digitsToNat_append, ih, Nat.ofDigits_cons]
    simp [digitsToNat]
    ring

/-- A digit string whose entries are all below 10 is bounded by the
corresponding power of 10. -/
theorem digitsToNat_lt_pow (l : List Nat) (h : ∀ d ∈ l, d < 10) :
    digitsToNat l < 10 ^ l.length := by
  induction l with
  | nil => simp [digitsToNat]
  | cons d ds ih =>
    rw [digitsToNat_cons]
    have hd : d < 10 := h d (List.mem_cons_self d ds)
    have hds := ih (fun x hx => h x (List.mem_cons_of_mem d hx))
    simp only [List.length_cons]
    calc d * 10 ^ ds.length + digitsToNat ds
        < d * 10 ^ ds.length + 10 ^ ds.length := by omega
      _ = (d + 1) * 10 ^ ds.length := by ring
      _ ≤ 10 * 10 ^ ds.length := Nat.mul_le_mul_right _ (by omega)
      _ = 10 ^ (ds.length + 1) := by ring

/-- Parsing back the decimal digit string of `n` recovers `n`. -/
theorem digitsToNat_decimalDigits (n : Nat) : digitsToNat (decimalDigits n) = n := by
  unfold decimalDigits
  rw [decDigitsAux_eq n n le_rfl, digitsToNat_reverse, Nat.ofDigits_digits]

/-- Every entry of the decimal digit string is a digit. -/
theorem decimalDigits_mem_lt (n : Nat) : ∀ d ∈ decimalDigits n, d < 10 := by
  intro d hd
  unfold decimalDigits at hd
  rw [decDigitsAux_eq n n le_rfl, List.mem_reverse] at hd
  exact Nat.digits_lt_base (by norm_num) hd

/-- The digit-string length agrees with that of `Nat.digits`. -/
theorem decimalDigits_length (n : Nat) :
    (decimalDigits n).length = (Nat.digits 10 n).length := by
  unfold decimalDigits
  rw [decDigitsAux_eq n n le_rfl, List.length_reverse]

/-- The last `k` characters of the decimal representation of `n` evaluate
to `n % 10 ^ k`. -/
theorem digitsToNat_sliceLast (n k : Nat) (h : k ≤ (decimalDigits n).length) :
    digitsToNat (sliceLast k (decimalDigits n)) = n % 10 ^ k := by
  set l := decimalDigits n with hl
  have hsplit : l.take (l.length - k) ++ l.drop (l.length - k) = l :=
    List.take_append_drop _ _
  have hlen : (l.drop (l.length - k)).length = k := by
    rw [List.length_drop]
    omega
  have hval : digitsToNat l =
      digitsToNat (l.take (l.length - k)) * 10 ^ k + digitsToNat (l.drop (l.length - k)) := by
    conv_lhs => rw [← hsplit]
    rw [digitsToNat_append, hlen]
  have hmem : ∀ d ∈ l.drop (l.length - k), d < 10 :=
    fun d hd => decimalDigits_mem_lt n d (List.mem_of_mem_drop hd)
  have hlt : digitsToNat (l.drop (l.length - k)) < 10 ^ k := by
    have hb := digitsToNat_lt_pow _ hmem
    rwa [hlen] at hb
  have hn : digitsToNat l = n := digitsToNat_decimalDigits n
  show digitsToNat (l.drop (l.length - k)) = n % 10 ^ k
  rw [← hn, hval, mul_comm, Nat.mul_add_mod, Nat.mod_eq_of_lt hlt]

/-- C7 counterexample: with all 18 random digit picks equal to 0 (a value
the generator can produce) and timestamp 12345, the produced value is
12345, whose decimal representation has 5 digits, not 23. -/
theorem getRandomTokenID_short_cex :
    getRandomTokenID (List.replicate 18 0) 12345 = 12345 ∧
    (Nat.digits 10 (getRandomTokenID (List.replicate 18 0) 12345)).length ≠ 23 := by
  refine ⟨rfl, ?_⟩
  have h : getRandomTokenID (List.replicate 18 0) 12345 = 12345 := rfl
  rw [h, Nat.digits_len 10 12345 (by norm_num) (by norm_num)]
  have hlog : Nat.log 10 12345 = 4 :=
    Nat.log_eq_of_pow_le_of_lt_pow (by norm_num) (by norm_num)
  omega

/-- C7 (amended): for 18 random digit picks whose first pick is nonzero
and a timestamp with at least 5 decimal digits, the produced value has a
decimal representation of exactly 23 digits, and the value agrees with
the timestamp modulo `10 ^ 5` (its trailing 5 digits are the last 5
digits of the timestamp). -/
theorem getRandomTokenID_digits (d0 : Nat) (rest : List Nat) (now : Nat)
    (hlen : (d0 :: rest).length = 18) (hd0 : 1 ≤ d0)
    (hds : ∀ d ∈ d0 :: rest, d < 10) (hnow : 10 ^ 4 ≤ now) :
    (Nat.digits 10 (getRandomTokenID (d0 :: rest) now)).length = 23 ∧
    getRandomTokenID (d0 :: rest) now % 10 ^ 5 = now % 10 ^ 5 := by
  have hrest : rest.length = 17 := by simpa using hlen
  have h1 : (10:ℕ) ^ 4 = 10000 := by norm_num
  have hn0 : now ≠ 0 := by omega
  have hlog : 4 ≤ Nat.log 10 now := (Nat.pow_le_iff_le_log (by norm_num) hn0).mp hnow
  have hdl : 5 ≤ (decimalDigits now).length := by
    rw [decimalDigits_length, Nat.digits_len 10 now (by norm_num) hn0]
    omega
  have hslice : digitsToNat (sliceLast 5 (decimalDigits now)) = now % 10 ^ 5 :=
    digitsToNat_sliceLast now 5 hdl
  have hslen : (sliceLast 5 (decimalDigits now)).length = 5 := by
    show (List.drop _ _).length = 5
    rw [List.length_drop]
    omega
  have hv : getRandomTokenID (d0 :: rest) now =
      digitsToNat (d0 :: rest) * 10 ^ 5 + now % 10 ^ 5 := by
    unfold getRandomTokenID
    rw [digitsToNat_append, hslen, hslice]
  have hAlow : 10 ^ 17 ≤ digitsToNat (d0 :: rest) := by
    rw [digitsToNat_cons, hrest]
    have hm : 1 * 10 ^ 17 ≤ d0 * 10 ^ 17 := Nat.mul_le_mul_right _ hd0
    omega
  have hAhigh : digitsToNat (d0 :: rest) < 10 ^ 18 := by
    have hb := digitsToNat_lt_pow (d0 :: rest) hds
    rwa [hlen] at hb
  have hr5 : now % 10 ^ 5 < 10 ^ 5 := Nat.mod_lt _ (by norm_num)
  have hlow : 10 ^ 22 ≤ getRandomTokenID (d0 :: rest) now := by
    rw [hv]
    calc (10:ℕ) ^ 22 = 10 ^ 17 * 10 ^ 5 := by norm_num
      _ ≤ digitsToNat (d0 :: rest) * 10 ^ 5 := Nat.mul_le_mul_right _ hAlow
      _ ≤ _ := Nat.le_add_right _ _
  have hhigh : getRandomTokenID (d0 :: rest) now < 10 ^ 23 := by
    rw [hv]
    calc digitsToNat (d0 :: rest) * 10 ^ 5 + now % 10 ^ 5
        < digitsToNat (d0 :: rest) * 10 ^ 5 + 10 ^ 5 := by omega
      _ = (digitsToNat (d0 :: rest) + 1) * 10 ^ 5 := by ring
      _ ≤ 10 ^ 18 * 10 ^ 5 := Nat.mul_le_mul_right _ (by omega)
      _ = 10 ^ 23 := by norm_num
  constructor
  · have hv0 : getRandomTokenID (d0 :: rest) now ≠ 0 := by
      have hp : (0:ℕ) < 10 ^ 22 := by positivity
      omega
    rw [Nat.digits_len 10 _ (by norm_num) hv0]
    have hlg : Nat.log 10 (getRandomTokenID (d0 :: rest) now) = 22 :=
      Nat.log_eq_of_pow_le_of_lt_pow hlow hhigh
    omega
  · rw [hv, mul_comm, Nat.mul_add_mod]
    exact Nat.mod_eq_of_lt hr5

/-- C7 witness for the amended claim: first pick 1, remaining picks 0,
timestamp 10000. -/
theorem getRandomTokenID_digits_witness :
    (Nat.digits 10 (getRandomTokenID (1 :: List.replicate 17 0) 10000)).length = 23 ∧
    getRandomTokenID (1 :: List.replicate 17 0) 10000 % 10 ^ 5 = 10000 % 10 ^ 5 :=
  ⟨(getRandomTokenID_digits 1 (List.replicate 17 0) 10000 (by decide) (by decide)
      (by decide) (by norm_num)).1,
    (getRandomTokenID_digits 1 (List.replicate 17 0) 10000 (by decide) (by decide)
      (by decide) (by norm_num)).2⟩

end InkoBot
